import Mathlib

/-!
Shallow embedding of the home-services API (Express server `server.js` and
its Cloudflare-worker variant), restricted to the authorization policy, the
catalog (service) store, the notice (message) store and the bookmark
(favorite) store, together with theorems settling the specification claims.

Conventions of the embedding:
* JavaScript strings are Lean `String`s; a field whose JS value may be
  `undefined` is an `Option`; the empty string plays the role of the other
  falsy string value where the code only tests truthiness.
* the mutable JSON stores are explicit `List` arguments and results;
  handlers are pure functions from (store, request, clock) to
  (response, store).
* blob-store side effects (file / R2 writes and deletes) are recorded as an
  explicit event list in the order the code performs them.
-/

/-- Truthiness of the `groups` field of a multipart body: it may be absent,
a single string, or an array of strings (`Array.isArray(groups) ? groups :
typeof groups === 'string' ? [groups] : []`). -/
inductive GroupsField where
  | absent
  | str (s : String)
  | arr (l : List String)
  deriving DecidableEq

/-- Normalisation performed by the service handlers:
`Array.isArray(groups) ? groups : typeof groups === 'string' ? [groups] : []`. -/
def normalizeGroups : GroupsField → List String
  | .absent => []
  | .str s => [s]
  | .arr l => l

/-- Intrinsic dimensions that `sharp(imageBuffer).metadata()` reports for an
uploaded image. -/
structure ImageData where
  width : Nat
  height : Nat
  deriving DecidableEq

/-- The fixed render height (`const resizedHeight = 50`). -/
def resizedHeightConst : Nat := 50

/-- `Math.round((originalWidth / originalHeight) * resizedHeight)` for a
positive height, as exact rational rounding (round half up). -/
def resizedWidthOf (w h : Nat) : Nat :=
  (2 * w * resizedHeightConst + h) / (2 * h)

/-- One character of JavaScript whitespace (`\s` over the characters the
server actually receives in names). -/
def isSpaceChar (c : Char) : Bool :=
  c = ' ' || c = '\t' || c = '\n' || c = '\r'

/-- Replacement of every maximal whitespace run by an underscore, i.e.
`name.replace(/\s+/g, '_')` on a character list; the flag records whether
the previous character belonged to a whitespace run already replaced. -/
def squashSpacesGo : Bool → List Char → List Char
  | _, [] => []
  | prevSpace, c :: rest =>
    if isSpaceChar c then
      (if prevSpace then [] else ['_']) ++ squashSpacesGo true rest
    else
      c :: squashSpacesGo false rest

/-- `name.replace(/\s+/g, '_')` on a string. -/
def squashSpaces (s : String) : String :=
  ⟨squashSpacesGo false s.data⟩

/-- File name derived for an ingested image:
`${Date.now()}-${name.replace(/\s+/g, '_')}.png`. -/
def mkFileName (now : Nat) (name : String) : String :=
  toString now ++ "-" ++ squashSpaces name ++ ".png"

/-- One side effect on the blob store (the `uploads` folder in the Express
server, the R2 bucket in the worker), in execution order. -/
inductive BlobEvent where
  | put (key : String)
  | del (key : String)
  deriving DecidableEq

/-- A catalog entry as persisted in `services.json` / the `services` table.
The worker stores `null` dimensions (its `processImage` does not read
them), hence the `Option` dimensions; the Express server always stores
numbers. -/
structure Service where
  id : String
  name : String
  redirectUrl : String
  allowedGroups : List String
  imagePath : String
  originalWidth : Option Nat
  originalHeight : Option Nat
  resizedHeight : Nat
  resizedWidth : Option Nat
  deriving DecidableEq

/-- The resolved caller identity that `checkAuth` attaches to the request
(`req.userInfo`). -/
structure UserInfo where
  username : String
  email : Option String
  displayName : Option String
  avatarUrl : Option String
  groups : List String
  deriving DecidableEq

/-- Admin test used by `/whoami`: `req.userInfo.groups?.includes('admin')`. -/
def isAdmin (groups : List String) : Bool :=
  groups.contains "admin"

/-- The `requireAdmin` middleware: responds 403 when
`!userInfo?.groups?.includes('admin')`, otherwise passes the request on
(`none` = admitted). -/
def requireAdmin (u : UserInfo) : Option Nat :=
  if u.groups.contains "admin" then none else some 403

/-- Visibility predicate of the `GET /services` handler:
`s.allowedGroups?.some(g => userGroups.includes(g))`. -/
def serviceVisible (userGroups : List String) (s : Service) : Bool :=
  s.allowedGroups.any (fun g => userGroups.contains g)

/-- The `GET /services` listing:
`services.filter(s => s.allowedGroups?.some(g => userGroups.includes(g)))`. -/
def listServices (services : List Service) (userGroups : List String) : List Service :=
  services.filter (serviceVisible userGroups)

/-- A concrete catalog entry whose `allowedGroups` is `{"staff"}`, used by
the visibility examples. -/
def staffEntry : Service :=
  { id := "e1"
    name := "wiki"
    redirectUrl := "https://wiki.example"
    allowedGroups := ["staff"]
    imagePath := "uploads/1-wiki.png"
    originalWidth := some 200
    originalHeight := some 100
    resizedHeight := 50
    resizedWidth := some 100 }

/-- The body of a `POST /add-service` request after multer parsing: text
fields from `req.body` plus the optional uploaded image (`req.file`); the
empty string stands for an absent or empty (falsy) text field, which the
handler's validation treats alike. -/
structure AddServiceReq where
  name : String
  redirectUrl : String
  groups : GroupsField
  image : Option ImageData
  deriving DecidableEq

/-- Response of the `POST /add-service` handler. -/
inductive AddServiceResult where
  | validationError
  | created (id : String)
  deriving DecidableEq

/-- Result state of one `POST /add-service` call: the HTTP-level result,
the persisted service list, and the blob-store events the call performed. -/
structure AddOutcome where
  result : AddServiceResult
  services : List Service
  events : List BlobEvent
  deriving DecidableEq

/-- The `POST /add-service` handler (Express variant): validates
`!name || !redirectUrl || !imageBuffer || allowedGroups.length === 0`
before any write, then resizes the image, writes it under
`${Date.now()}-${name.replace(/\s+/g,'_')}.png`, and appends the record
with `id: Date.now().toString()`. -/
def addService (services : List Service) (req : AddServiceReq) (now : Nat) : AddOutcome :=
  let allowedGroups := normalizeGroups req.groups
  match req.image with
  | none => ⟨.validationError, services, []⟩
  | some img =>
    if req.name = "" ∨ req.redirectUrl = "" ∨ allowedGroups.isEmpty then
      ⟨.validationError, services, []⟩
    else
      let fileName := mkFileName now req.name
      let filePath := "uploads/" ++ fileName
      let newService : Service :=
        { id := toString now
          name := req.name
          redirectUrl := req.redirectUrl
          allowedGroups := allowedGroups
          imagePath := filePath
          originalWidth := some img.width
          originalHeight := some img.height
          resizedHeight := resizedHeightConst
          resizedWidth := some (resizedWidthOf img.width img.height) }
      ⟨.created newService.id, services ++ [newService], [.put filePath]⟩

/-- The body of a `PUT /update-service/:id` request: each text field is
`none` when absent from the body, and the handler additionally skips the
falsy empty string. -/
structure UpdateServiceReq where
  name : Option String
  redirectUrl : Option String
  groups : GroupsField
  image : Option ImageData
  deriving DecidableEq

/-- Partial merge of the text fields performed by `PUT /update-service/:id`:
`if (name) ...; if (redirectUrl) ...; if (groups) { ... if
(allowedGroups.length) services[index].allowedGroups = allowedGroups }`. -/
def mergeServiceFields (s : Service) (req : UpdateServiceReq) : Service :=
  let s1 :=
    match req.name with
    | some n => if n = "" then s else { s with name := n }
    | none => s
  let s2 :=
    match req.redirectUrl with
    | some r => if r = "" then s1 else { s1 with redirectUrl := r }
    | none => s1
  match req.groups with
  | .absent => s2
  | .str g => if g = "" then s2 else { s2 with allowedGroups := [g] }
  | .arr l => if l.isEmpty then s2 else { s2 with allowedGroups := l }

/-- The image-replace block of the Express `PUT /update-service/:id`
handler: write the new resized file first (`fs.writeFileSync`), then unlink
the previous `imagePath` when it exists, and point the record at the new
file. `oldExists` is the `fs.existsSync(services[index].imagePath)` test. -/
def serviceImageReplace (s : Service) (img : ImageData) (now : Nat) (oldExists : Bool) :
    Service × List BlobEvent :=
  let fileName := mkFileName now s.name
  let filePath := "uploads/" ++ fileName
  let evs := .put filePath :: (if oldExists then [.del s.imagePath] else [])
  (⟨s.id, s.name, s.redirectUrl, s.allowedGroups, filePath, some img.width,
      some img.height, resizedHeightConst, some (resizedWidthOf img.width img.height)⟩,
    evs)

/-- In-place update of the first record matching `id`
(`services.findIndex(s => s.id === id)` followed by mutation of
`services[index]`), returning the updated record, the new list and the blob
events, or `none` when the id is absent. -/
def updateServiceList (req : UpdateServiceReq) (now : Nat) (oldExists : Bool) (id : String) :
    List Service → Option (Service × List Service × List BlobEvent)
  | [] => none
  | s :: rest =>
    if s.id = id then
      let s1 := mergeServiceFields s req
      match req.image with
      | none => some (s1, s1 :: rest, [])
      | some img =>
        let r := serviceImageReplace s1 img now oldExists
        some (r.1, r.1 :: rest, r.2)
    else
      match updateServiceList req now oldExists id rest with
      | none => none
      | some (u, rest', evs) => some (u, s :: rest', evs)

/-- Response of the `PUT /update-service/:id` handler. -/
inductive UpdateResult where
  | notFound
  | updated (s : Service)
  deriving DecidableEq

/-- The `PUT /update-service/:id` handler (Express variant). -/
def updateService (services : List Service) (id : String) (req : UpdateServiceReq)
    (now : Nat) (oldExists : Bool) : UpdateResult × List Service × List BlobEvent :=
  match updateServiceList req now oldExists id services with
  | none => (.notFound, services, [])
  | some (u, services', evs) => (.updated u, services', evs)

/-- The `groups` field of an update is absent or yields an empty group
list: absent from the body, the falsy empty string (which the worker's
multipart parser splits into an empty array), or an empty array. -/
def groupsFieldEmpty : GroupsField → Bool
  | .absent => true
  | .str s => s == ""
  | .arr l => l.isEmpty

/-- A notice as persisted in `messages.json`: `userId` is the recipient's
key (their email), `type` the severity, `dismissed` the dismissal flag. -/
structure Message where
  id : String
  userId : String
  type : String
  title : String
  content : String
  createdAt : String
  dismissed : Bool
  deriving DecidableEq

/-- The `GET /messages` listing for the caller:
`messages.filter(m => m.userId === userEmail && !m.dismissed)`. -/
def getMessages (messages : List Message) (userEmail : String) : List Message :=
  messages.filter (fun m => m.userId == userEmail && !m.dismissed)

/-- Identifier assigned to a new notice:
`Date.now().toString() + Math.random()`, with the decimal rendering of the
`Math.random()` draw passed in as `rand`. -/
def newMessageId (now : Nat) (rand : String) : String :=
  toString now ++ rand

/-- The body of a `POST /update-message/:id` request: each text field is
`none` when absent; `dismissed` is `some b` exactly when the supplied JSON
value is a boolean (`typeof dismissed === 'boolean'`). -/
structure UpdateMessageReq where
  type : Option String
  title : Option String
  content : Option String
  dismissed : Option Bool
  deriving DecidableEq

/-- Partial merge performed by `POST /update-message/:id`:
`if (type) ...; if (title) ...; if (content) ...; if (typeof dismissed ===
'boolean') messages[index].dismissed = dismissed`. -/
def mergeMessageFields (m : Message) (req : UpdateMessageReq) : Message :=
  let m1 :=
    match req.type with
    | some t => if t = "" then m else { m with type := t }
    | none => m
  let m2 :=
    match req.title with
    | some t => if t = "" then m1 else { m1 with title := t }
    | none => m1
  let m3 :=
    match req.content with
    | some c => if c = "" then m2 else { m2 with content := c }
    | none => m2
  match req.dismissed with
  | some b => { m3 with dismissed := b }
  | none => m3

/-- A bookmark as persisted in `favorites.json`: the `url` acts as the id
within the owner's (`userId`) scope. -/
structure Favorite where
  url : String
  title : String
  userId : String
  createdAt : String
  deriving DecidableEq

/-- Response of the `POST /add-favorite` handler. -/
inductive AddFavResult where
  | missingFields
  | alreadyExists
  | created (url : String)
  deriving DecidableEq

/-- The pair test of `POST /add-favorite`:
`f.url === url && f.userId === userEmail`. -/
def favMatches (userEmail url : String) (f : Favorite) : Bool :=
  f.url == url && f.userId == userEmail

/-- The `POST /add-favorite` handler: 400 on a missing url/title, 400 'Ce
lien est déjà en favori' when `favorites.find(f => f.url === url &&
f.userId === userEmail)` hits, otherwise pushes the new record. -/
def addFavorite (favorites : List Favorite) (userEmail url title nowIso : String) :
    AddFavResult × List Favorite :=
  if url = "" ∨ title = "" then
    (.missingFields, favorites)
  else if (favorites.find? (favMatches userEmail url)).isSome then
    (.alreadyExists, favorites)
  else
    (.created url, favorites ++ [⟨url, title, userEmail, nowIso⟩])

/-- Removal of the first record matching `id`
(`services.findIndex(s => s.id === id)` followed by `services.splice(index, 1)`),
returning the removed record and the remaining list. -/
def removeFirstById (id : String) : List Service → Option (Service × List Service)
  | [] => none
  | s :: rest =>
    if s.id = id then some (s, rest)
    else
      match removeFirstById id rest with
      | none => none
      | some (r, rest') => some (r, s :: rest')

/-- Response of the Express `DELETE /delete-service/:id` handler;
`internalError` is the 500 produced by the global error middleware when an
exception escapes the handler (which has no try/catch of its own). -/
inductive DeleteServiceResult where
  | notFound
  | deleted (id : String)
  | internalError
  deriving DecidableEq

/-- The Express `DELETE /delete-service/:id` handler. `services` is the
in-memory list, `persisted` the content of `services.json`; `fileExists`
models `fs.existsSync(removed.imagePath)` and `unlinkOk` whether
`fs.unlinkSync` succeeds when attempted. When the unlink throws, the
exception propagates: `saveServices` is never reached (the removal is not
persisted) and the response is a 500. -/
def deleteService (services persisted : List Service) (id : String)
    (fileExists unlinkOk : Bool) : DeleteServiceResult × List Service × List Service :=
  match removeFirstById id services with
  | none => (.notFound, services, persisted)
  | some (_, remaining) =>
    if fileExists && !unlinkOk then
      (.internalError, remaining, persisted)
    else
      (.deleted id, remaining, remaining)

/-- Replacement of the unique record matching `id` by `v`
(`prisma.service.update({ where: { id }, data })` on the list model). -/
def setFirstById (id : String) (v : Service) : List Service → List Service
  | [] => []
  | s :: rest => if s.id = id then v :: rest else s :: setFirstById id v rest

/-- The base name the worker hands to `processImage` on a replace:
`(name || existingService.name || 'service')`. -/
def workerReplaceBaseName (name : Option String) (existingName : String) : String :=
  match name with
  | some s => if s ≠ "" then s else (if existingName ≠ "" then existingName else "service")
  | none => if existingName ≠ "" then existingName else "service"

/-- The worker's `PUT /update-service/:id` route: find the record, build
`updateData` by the same falsy-skipping merge, and on a supplied image
first delete the old R2 object (`env.IMAGES_R2.delete(existingService.imagePath)`,
errors swallowed), then put the new one, then update the record. The
worker's `processImage` stores no dimensions (`originalWidth: null, ...,
resizedHeight: 50, resizedWidth: null`). -/
def workerUpdateService (services : List Service) (id : String) (req : UpdateServiceReq)
    (now : Nat) : UpdateResult × List Service × List BlobEvent :=
  match services.find? (fun s => s.id == id) with
  | none => (.notFound, services, [])
  | some existing =>
    let merged := mergeServiceFields existing req
    match req.image with
    | none => (.updated merged, setFirstById id merged services, [])
    | some _ =>
      let baseName := workerReplaceBaseName req.name existing.name
      let fileName := toString now ++ "-" ++ squashSpaces (squashSpaces baseName) ++ ".png"
      let imageKey := "images/" ++ fileName
      let evs := (if existing.imagePath ≠ "" then [BlobEvent.del existing.imagePath] else [])
        ++ [BlobEvent.put imageKey]
      let updated : Service :=
        { merged with
          imagePath := imageKey
          originalWidth := none
          originalHeight := none
          resizedHeight := 50
          resizedWidth := none }
      (.updated updated, setFirstById id updated services, evs)

/-- Bridge between the boolean `List.contains` used by the JavaScript
`includes` calls and propositional membership. -/
lemma contains_eq_true_iff {α : Type} [BEq α] [LawfulBEq α] (l : List α) (a : α) :
    l.contains a = true ↔ a ∈ l :=
  List.elem_iff

/-- C1: an entry is listed by `GET /services` iff it is in the store and its
`allowedGroups` meets the caller's groups; in particular a `{"staff"}` entry
is visible to `{"staff","x"}` and invisible to `{"guest"}`. -/
theorem services_listing_iff_group_intersection :
    (∀ (services : List Service) (userGroups : List String) (s : Service),
      s ∈ listServices services userGroups ↔
        s ∈ services ∧ ∃ g, g ∈ userGroups ∧ g ∈ s.allowedGroups) ∧
    staffEntry ∈ listServices [staffEntry] ["staff", "x"] ∧
    staffEntry ∉ listServices [staffEntry] ["guest"] := by
  refine ⟨fun services userGroups s => ?_, by decide, by decide⟩
  simp only [listServices, List.mem_filter, serviceVisible, List.any_eq_true,
    contains_eq_true_iff]
  constructor
  · rintro ⟨hs, g, hg1, hg2⟩
    exact ⟨hs, g, hg2, hg1⟩
  · rintro ⟨hs, g, hg1, hg2⟩
    exact ⟨hs, g, hg2, hg1⟩

/-- C2: `isAdmin` holds exactly when `"admin"` is among the identity's
groups, and the `requireAdmin` gate admits a caller exactly under the same
condition. -/
theorem isAdmin_iff_admin_group :
    ∀ u : UserInfo,
      (isAdmin u.groups = true ↔ "admin" ∈ u.groups) ∧
      (requireAdmin u = none ↔ "admin" ∈ u.groups) := by
  intro u
  constructor
  · simp [isAdmin, contains_eq_true_iff]
  · simp [requireAdmin, contains_eq_true_iff]

/-- C3: a catalog create whose groups normalise to the empty list is
rejected with a 400 validation error, the service store is returned
unchanged, and no blob-store write happens. -/
theorem addService_empty_groups_rejected :
    ∀ (services : List Service) (req : AddServiceReq) (now : Nat),
      normalizeGroups req.groups = [] →
      addService services req now = ⟨.validationError, services, []⟩ := by
  intro services req now h
  cases hi : req.image with
  | none => simp [addService, hi]
  | some img => simp [addService, hi, h]

/-- Witness for C3 at a concrete request whose groups field is absent. -/
theorem addService_empty_groups_rejected_witness :
    normalizeGroups (AddServiceReq.mk "svc" "https://a" .absent (some ⟨200, 100⟩)).groups = [] ∧
    addService [staffEntry] (AddServiceReq.mk "svc" "https://a" .absent (some ⟨200, 100⟩)) 7
      = ⟨.validationError, [staffEntry], []⟩ :=
  ⟨rfl, addService_empty_groups_rejected [staffEntry] _ 7 rfl⟩

/-- A merge whose groups field is absent or yields an empty list leaves
`allowedGroups` untouched. -/
lemma mergeServiceFields_allowedGroups_of_empty (s : Service) (req : UpdateServiceReq)
    (h : groupsFieldEmpty req.groups = true) :
    (mergeServiceFields s req).allowedGroups = s.allowedGroups := by
  rcases req with ⟨n, r, g, i⟩
  cases g with
  | absent =>
    cases n <;> cases r <;> simp only [mergeServiceFields] <;> split_ifs <;> simp_all
  | str gs =>
    have hgs : gs = "" := by simpa [groupsFieldEmpty] using h
    subst hgs
    cases n <;> cases r <;> simp only [mergeServiceFields] <;> split_ifs <;> simp_all
  | arr l =>
    have hl : l = [] := by simpa [groupsFieldEmpty, List.isEmpty_iff] using h
    subst hl
    cases n <;> cases r <;> simp only [mergeServiceFields] <;> split_ifs <;> simp_all

/-- The image-replace step never touches `allowedGroups`. -/
lemma serviceImageReplace_allowedGroups (s : Service) (img : ImageData) (now : Nat)
    (oldExists : Bool) :
    (serviceImageReplace s img now oldExists).1.allowedGroups = s.allowedGroups := rfl

/-- Under an empty groups field, the updated list carries the same
`allowedGroups` column as the input list. -/
lemma updateServiceList_allowedGroups_of_empty (req : UpdateServiceReq) (now : Nat)
    (oldExists : Bool) (id : String) (h : groupsFieldEmpty req.groups = true) :
    ∀ (services : List Service) (u : Service) (services' : List Service)
      (evs : List BlobEvent),
      updateServiceList req now oldExists id services = some (u, services', evs) →
      services'.map Service.allowedGroups = services.map Service.allowedGroups := by
  intro services
  induction services with
  | nil => intro u services' evs hu; simp [updateServiceList] at hu
  | cons s rest ih =>
    intro u services' evs hu
    by_cases hid : s.id = id
    · cases hi : req.image with
      | none =>
        simp only [updateServiceList, if_pos hid, hi, Option.some.injEq,
          Prod.mk.injEq] at hu
        obtain ⟨-, h2, -⟩ := hu
        subst h2
        simp [mergeServiceFields_allowedGroups_of_empty s req h]
      | some img =>
        simp only [updateServiceList, if_pos hid, hi, Option.some.injEq,
          Prod.mk.injEq] at hu
        obtain ⟨-, h2, -⟩ := hu
        subst h2
        simp [serviceImageReplace_allowedGroups,
          mergeServiceFields_allowedGroups_of_empty s req h]
    · simp only [updateServiceList, if_neg hid] at hu
      cases hrest : updateServiceList req now oldExists id rest with
      | none => rw [hrest] at hu; exact absurd hu (by simp)
      | some triple =>
        obtain ⟨u0, rest', evs0⟩ := triple
        rw [hrest] at hu
        simp only [Option.some.injEq] at hu
        have h1 : u0 = u := congrArg Prod.fst hu
        have h2 : s :: rest' = services' := congrArg (fun p => p.2.1) hu
        rw [← h2]
        simp [ih u0 rest' evs0 hrest]

/-- C4: an update whose groups field is absent or yields an empty list
leaves the `allowedGroups` of every stored entry (in particular the updated
one) exactly as before the call. -/
theorem updateService_empty_groups_preserves_allowedGroups :
    ∀ (services : List Service) (id : String) (req : UpdateServiceReq) (now : Nat)
      (oldExists : Bool),
      groupsFieldEmpty req.groups = true →
      ((updateService services id req now oldExists).2.1).map Service.allowedGroups
        = services.map Service.allowedGroups := by
  intro services id req now oldExists h
  unfold updateService
  cases hu : updateServiceList req now oldExists id services with
  | none => rfl
  | some triple =>
    obtain ⟨u, services', evs⟩ := triple
    exact updateServiceList_allowedGroups_of_empty req now oldExists id h services
      u services' evs hu

/-- Witness for C4: updating the staff entry with an empty groups array
(and a new name) keeps its `allowedGroups` column. -/
theorem updateService_empty_groups_preserves_allowedGroups_witness :
    groupsFieldEmpty (UpdateServiceReq.mk (some "new name") none (.arr []) none).groups = true ∧
    ((updateService [staffEntry] "e1"
        (UpdateServiceReq.mk (some "new name") none (.arr []) none) 9 false).2.1).map
        Service.allowedGroups
      = [staffEntry].map Service.allowedGroups :=
  ⟨rfl, updateService_empty_groups_preserves_allowedGroups [staffEntry] "e1" _ 9 false rfl⟩

/-- C5: every message that `GET /messages` returns to a caller is addressed
to that caller and not dismissed. -/
theorem messages_listing_only_own_undismissed :
    ∀ (messages : List Message) (userEmail : String) (m : Message),
      m ∈ getMessages messages userEmail →
      m.userId = userEmail ∧ m.dismissed = false := by
  intro msgs u m hm
  simp only [getMessages, List.mem_filter, Bool.and_eq_true, beq_iff_eq,
    Bool.not_eq_true'] at hm
  exact ⟨hm.2.1, hm.2.2⟩

/-- A concrete undismissed notice addressed to `u1`. -/
def noticeU1 : Message :=
  ⟨"m1", "u1", "information", "maintenance", "tonight", "2026-01-01T00:00:00Z", false⟩

/-- A concrete dismissed notice addressed to `u2`. -/
def noticeU2 : Message :=
  ⟨"m2", "u2", "warning", "other", "text", "2026-01-02T00:00:00Z", true⟩

/-- Witness for C5 on a concrete two-message store. -/
theorem messages_listing_only_own_undismissed_witness :
    noticeU1.userId = "u1" ∧ noticeU1.dismissed = false :=
  messages_listing_only_own_undismissed [noticeU1, noticeU2] "u1" noticeU1 (by decide)

/-- The duplicate check of `POST /add-favorite` succeeds exactly when a
record with the caller's `(url, owner)` pair is stored. -/
lemma find_favMatches_isSome_iff (l : List Favorite) (u url : String) :
    (l.find? (favMatches u url)).isSome = true ↔ ∃ f ∈ l, f.url = url ∧ f.userId = u := by
  rw [List.find?_isSome]
  simp [favMatches]

/-- C6: when a bookmark with the caller's `(url, owner)` pair is already
stored, `POST /add-favorite` answers 400 'already exists' and leaves the
store unchanged; consequently two identical creates from a state without
the pair leave exactly one record for that pair. -/
theorem addFavorite_duplicate_rejected :
    ∀ (favorites : List Favorite) (u url title n1 n2 : String),
      url ≠ "" → title ≠ "" →
      ((∃ f ∈ favorites, f.url = url ∧ f.userId = u) →
          addFavorite favorites u url title n1 = (.alreadyExists, favorites)) ∧
      ((¬ ∃ f ∈ favorites, f.url = url ∧ f.userId = u) →
          (addFavorite (addFavorite favorites u url title n1).2 u url title n2).1
              = .alreadyExists ∧
          (((addFavorite (addFavorite favorites u url title n1).2 u url title n2).2).filter
              (favMatches u url)).length = 1) := by
  intro favs u url title n1 n2 hu ht
  constructor
  · intro hex
    unfold addFavorite
    rw [if_neg (by simp [hu, ht]), if_pos ((find_favMatches_isSome_iff favs u url).mpr hex)]
  · intro hnex
    have h1 : addFavorite favs u url title n1
        = (.created url, favs ++ [⟨url, title, u, n1⟩]) := by
      unfold addFavorite
      rw [if_neg (by simp [hu, ht]),
        if_neg (fun hh => hnex ((find_favMatches_isSome_iff favs u url).mp hh))]
    have hmem : ∃ f ∈ favs ++ [(⟨url, title, u, n1⟩ : Favorite)], f.url = url ∧ f.userId = u :=
      ⟨⟨url, title, u, n1⟩, by simp, rfl, rfl⟩
    have h2 : addFavorite (favs ++ [⟨url, title, u, n1⟩]) u url title n2
        = (.alreadyExists, favs ++ [⟨url, title, u, n1⟩]) := by
      unfold addFavorite
      rw [if_neg (by simp [hu, ht]),
        if_pos ((find_favMatches_isSome_iff _ u url).mpr hmem)]
    have hfavs : favs.filter (favMatches u url) = [] := by
      rw [List.filter_eq_nil_iff]
      intro f hf hp
      exact hnex ⟨f, hf, by simpa [favMatches] using hp⟩
    rw [h1, h2]
    refine ⟨rfl, ?_⟩
    simp [List.filter_append, hfavs, favMatches]

/-- Witness for C6: adding `https://a` twice for `u1` from the empty store
rejects the second call and leaves exactly one record. -/
theorem addFavorite_duplicate_rejected_witness :
    (addFavorite (addFavorite [] "u1" "https://a" "a site" "d1").2
        "u1" "https://a" "a site" "d2").1 = .alreadyExists ∧
    (((addFavorite (addFavorite [] "u1" "https://a" "a site" "d1").2
        "u1" "https://a" "a site" "d2").2).filter (favMatches "u1" "https://a")).length = 1 :=
  (addFavorite_duplicate_rejected [] "u1" "https://a" "a site" "d1" "d2"
      (by decide) (by decide)).2 (by simp)

/-- A valid `POST /add-service` request (all required fields present). -/
def validAddReq : AddServiceReq :=
  ⟨"svc", "https://a", .arr ["staff"], some ⟨200, 100⟩⟩

/-- C7 is violated by the code: two catalog creates handled in the same
millisecond (`Date.now()` = 1234 for both) both receive
`id: Date.now().toString()` = `"1234"`, so the assigned ids collide. -/
theorem add_service_same_instant_ids_collide :
    ((addService (addService [] validAddReq 1234).services validAddReq 1234).services.map
        Service.id)
      = ["1234", "1234"] := by
  rfl

/-- C8 is violated by the Express code: deleting the (existing) staff entry
while its image file exists but `fs.unlinkSync` throws makes the handler
respond 500 instead of success, and `saveServices` is skipped, so the
persisted store still contains the entry. -/
theorem delete_service_unlink_failure_fails_request :
    deleteService [staffEntry] [staffEntry] "e1" true false
      = (.internalError, [], [staffEntry]) := by
  rfl

/-- A stored service pointing at an existing blob, used for the replace
ordering counterexample. -/
def oldImageSvc : Service :=
  { id := "s1"
    name := "app"
    redirectUrl := "https://app.example"
    allowedGroups := ["staff"]
    imagePath := "images/old.png"
    originalWidth := none
    originalHeight := none
    resizedHeight := 50
    resizedWidth := none }

/-- C9 is violated by the worker code: on an image replace it emits the R2
delete of the old blob strictly before the put of the new one, so between
the two the record still references a deleted blob while no new blob
exists. -/
theorem worker_replace_deletes_old_blob_before_new_write :
    (workerUpdateService [oldImageSvc] "s1"
        (UpdateServiceReq.mk none none .absent (some ⟨120, 80⟩)) 99).2.2
      = [.del "images/old.png", .put "images/99-app.png"] := by
  rfl

/-- C10: in both partial updates a present-but-falsy text field (empty
string) is ignored exactly like an absent one, so no text field can be
cleared; the `dismissed` flag is the only exception, applied whenever the
supplied value is a boolean, including `false`. -/
theorem update_falsy_fields_keep_prior_values :
    ∀ (s : Service) (req : UpdateServiceReq) (m : Message) (mreq : UpdateMessageReq),
      ((req.name = none ∨ req.name = some "") →
        (mergeServiceFields s req).name = s.name) ∧
      ((req.redirectUrl = none ∨ req.redirectUrl = some "") →
        (mergeServiceFields s req).redirectUrl = s.redirectUrl) ∧
      ((mreq.type = none ∨ mreq.type = some "") →
        (mergeMessageFields m mreq).type = m.type) ∧
      ((mreq.title = none ∨ mreq.title = some "") →
        (mergeMessageFields m mreq).title = m.title) ∧
      ((mreq.content = none ∨ mreq.content = some "") →
        (mergeMessageFields m mreq).content = m.content) ∧
      (∀ b, mreq.dismissed = some b → (mergeMessageFields m mreq).dismissed = b) ∧
      (mreq.dismissed = none → (mergeMessageFields m mreq).dismissed = m.dismissed) := by
  intro s req m mreq
  obtain ⟨n, r, g, i⟩ := req
  obtain ⟨mt, mti, mc, md⟩ := mreq
  refine ⟨?_, ?_, ?_, ?_, ?_, ?_, ?_⟩
  · rintro (rfl | rfl) <;> cases r <;> cases g <;>
      simp only [mergeServiceFields] <;> split_ifs <;> simp_all
  · rintro (rfl | rfl) <;> cases n <;> cases g <;>
      simp only [mergeServiceFields] <;> split_ifs <;> simp_all
  · rintro (rfl | rfl) <;> cases mti <;> cases mc <;> cases md <;>
      simp only [mergeMessageFields] <;> split_ifs <;> simp_all
  · rintro (rfl | rfl) <;> cases mt <;> cases mc <;> cases md <;>
      simp only [mergeMessageFields] <;> split_ifs <;> simp_all
  · rintro (rfl | rfl) <;> cases mt <;> cases mti <;> cases md <;>
      simp only [mergeMessageFields] <;> split_ifs <;> simp_all
  · rintro b rfl
    cases mt <;> cases mti <;> cases mc <;> simp only [mergeMessageFields]
  · rintro rfl
    cases mt <;> cases mti <;> cases mc <;>
      simp only [mergeMessageFields] <;> split_ifs <;> simp_all

/-- Witness for C10 at concrete service and message updates: an empty-string
name is ignored, and `dismissed: false` is applied. -/
theorem update_falsy_fields_keep_prior_values_witness :
    (mergeServiceFields staffEntry (UpdateServiceReq.mk (some "") (some "") .absent none)).name
        = staffEntry.name ∧
    (mergeMessageFields noticeU2 (UpdateMessageReq.mk (some "") none (some "") (some false))).dismissed
        = false :=
  ⟨(update_falsy_fields_keep_prior_values staffEntry
        (UpdateServiceReq.mk (some "") (some "") .absent none) noticeU2
        (UpdateMessageReq.mk (some "") none (some "") (some false))).1 (Or.inr rfl),
    (update_falsy_fields_keep_prior_values staffEntry
        (UpdateServiceReq.mk (some "") (some "") .absent none) noticeU2
        (UpdateMessageReq.mk (some "") none (some "") (some false))).2.2.2.2.2.1 false rfl⟩
